import Mathlib

/-!
Shallow embedding of the level-monitor effect of the repository
(`examples/effects/level_monitor/mod.rs`, `builder.rs`, `handle.rs`).

Modelling conventions:

* `kira::dsp::Frame` holds two `f32` amplitudes.  The only floating-point
  operations the monitor performs on them are `abs`, the exact widening cast
  `as f64`, and `max`, all of which are exact, so amplitudes are modelled as
  rationals (`ℚ`) and the `f32 → f64` cast is the identity.
* The `VecDeque<Frame>` field `raw` is a `List Frame` whose head is the front
  (oldest element); `push_back` appends, `pop_front` drops the head, and
  iteration runs front to back, exactly as in the source.
* The `ringbuf` SPSC queue of capacity `SAMPLE_CAPACITY` shared by the
  producer half (inside the effect) and the consumer half (inside the handle)
  is a single `List LevelSample`, head = oldest; `push` appends at the tail
  and fails when the queue holds `SAMPLE_CAPACITY` items, `pop` removes the
  head.  In the sequential embedding the effect and the handle act on the one
  shared queue of the combined state.
* Rust `usize` subtraction: the source evaluates `self.raw.len() - 10`.
  For `len < 10` this overflows; a build with overflow checks panics there,
  a release build wraps modulo `2 ^ 64`.  The executable model uses the
  two's-complement wrap (`wrapSub64`), and the overflow condition itself is
  captured separately by `LevelMonitor.sendSampleUnderflows` /
  `LevelMonitor.processPanics`.
* `mod.rs` declares `pub struct LevelSample<const N: usize> { window: [Frame; N] }`,
  but `send_sample` constructs `LevelSample { left, right, left_peak, right_peak }`;
  the two are irreconcilable (the file does not typecheck as given).  The
  embedding follows the construction site in `send_sample`, which is the shape
  the running code would actually publish; the declared `window` field is
  recorded here because several claims are settled against this discrepancy.
-/

set_option linter.unusedVariables false

/-- One stereo audio frame: `kira::dsp::Frame { left: f32, right: f32 }`. -/
structure Frame where
  left : ℚ
  right : ℚ
deriving DecidableEq, Repr

/-- The sample actually constructed and pushed by `LevelMonitor::send_sample`
(`mod.rs` lines 56-61): four aggregate scalar levels.  Note that this is NOT
the declared shape of `LevelSample<N>` (which is `window: [Frame; N]`). -/
structure LevelSample where
  left : ℚ
  right : ℚ
  left_peak : ℚ
  right_peak : ℚ
deriving DecidableEq, Repr

/-- `kira::CommandError`, the error type used by `LevelMonitorHandle::get_sample`;
only the `CommandQueueFull` variant is produced by this code. -/
inductive CommandError where
  | commandQueueFull
  | mutexPoisoned
deriving DecidableEq, Repr

/-- `kira::Volume`: either a linear amplitude or a decibel value. -/
inductive Volume where
  | amplitude (amp : ℚ)
  | decibels (db : ℚ)
deriving DecidableEq, Repr

/-- `builder.rs`: `pub struct LevelMonitorBuilder(pub Volume)`. -/
structure LevelMonitorBuilder where
  volume : Volume
deriving DecidableEq, Repr

/-- `LevelMonitorBuilder::new` (`builder.rs` lines 17-19). -/
def LevelMonitorBuilder.new (volume : Volume) : LevelMonitorBuilder :=
  ⟨volume⟩

/-- `Default for LevelMonitorBuilder` (`builder.rs` lines 22-26). -/
def LevelMonitorBuilder.default : LevelMonitorBuilder :=
  ⟨Volume.amplitude 1⟩

/-- `builder.rs` line 10: `const SAMPLE_CAPACITY: usize = 4;` — the capacity of
the SPSC sample channel. -/
def SAMPLE_CAPACITY : ℕ := 4

/-- The rolling-window bound hard-coded in `LevelMonitor::process`
(`mod.rs` line 75: `if self.raw.len() > 2048`). -/
def WINDOW_CAP : ℕ := 2048

/-- Two's-complement wrap of the `usize` subtraction `a - b` in a release
build, for `a < 2 ^ 64` and `b ≤ 2 ^ 64`. -/
def wrapSub64 (a b : ℕ) : ℕ :=
  ((a + 2 ^ 64) - b) % 2 ^ 64

/-- `ringbuf` `HeapProducer::push`: succeeds (appending at the tail) iff the
queue currently holds fewer than `SAMPLE_CAPACITY` items, otherwise fails and
returns the rejected item to the caller (modelled as `none`). -/
def channelPush (c : List LevelSample) (s : LevelSample) : Option (List LevelSample) :=
  if c.length < SAMPLE_CAPACITY then some (c ++ [s]) else none

/-- The state of `struct LevelMonitor<const N: usize>` (`mod.rs` lines 18-21):
the producer half of the sample channel and the raw frame window.  In the
sequential embedding the `sample_producer` list is the full contents of the
one SPSC queue shared with the handle's consumer half. -/
structure LevelMonitor where
  sample_producer : List LevelSample
  raw : List Frame
deriving DecidableEq, Repr

/-- `LevelMonitor::new` (`mod.rs` lines 24-29): stores the producer half and an
empty window; the `builder` argument is bound but never used. -/
def LevelMonitor.new (builder : LevelMonitorBuilder)
    (sample_producer : List LevelSample) : LevelMonitor :=
  { sample_producer := sample_producer, raw := [] }

/-- `EffectBuilder::build for LevelMonitorBuilder` (`builder.rs` lines 32-39):
allocates the channel (`HeapRb::new(SAMPLE_CAPACITY).split()`, initially
empty) and returns the effect and the handle, which share that one channel.
In the sequential embedding the combined state of the returned pair is the
`LevelMonitor` record itself. -/
def LevelMonitorBuilder.build (b : LevelMonitorBuilder) : LevelMonitor :=
  LevelMonitor.new b []

/-- Accumulator of the metering loop in `send_sample` (`mod.rs` lines 35-54):
the four running levels plus the `count` loop counter. -/
structure MeterAcc where
  left_latest : ℚ
  right_latest : ℚ
  left_peak : ℚ
  right_peak : ℚ
  count : ℕ
deriving DecidableEq, Repr

/-- The sample value computed by the body of `send_sample` (`mod.rs` lines
35-61): `recent_window = (len - 10).min(0)` (usize arithmetic, wrapping
model), then one pass over `raw` front-to-back maintaining peak levels over
the whole window and `latest` levels over the frames with `count > recent_window`. -/
def LevelMonitor.meterSample (m : LevelMonitor) : LevelSample :=
  let len := m.raw.length
  let recent_window := (wrapSub64 len 10).min 0
  let acc := m.raw.foldl
    (fun (a : MeterAcc) (frame : Frame) =>
      let left : ℚ := |frame.left|
      let right : ℚ := |frame.right|
      { left_latest := if recent_window < a.count then max a.left_latest left else a.left_latest
        right_latest := if recent_window < a.count then max a.right_latest right else a.right_latest
        left_peak := max a.left_peak left
        right_peak := max a.right_peak right
        count := a.count + 1 })
    (⟨0, 0, 0, 0, 0⟩ : MeterAcc)
  { left := acc.left_latest, right := acc.right_latest,
    left_peak := acc.left_peak, right_peak := acc.right_peak }

/-- `LevelMonitor::send_sample` (`mod.rs` lines 31-69): early-return if the
producer is full (`is_full()` is `len == capacity`); otherwise compute the
sample and push it, dropping the sample (with a log message, modelled as a
no-op) if the push fails. -/
def LevelMonitor.sendSample (m : LevelMonitor) : LevelMonitor :=
  if m.sample_producer.length = SAMPLE_CAPACITY then m
  else
    match channelPush m.sample_producer m.meterSample with
    | some c => { m with sample_producer := c }
    | none => m

/-- True iff the call to `send_sample` takes the `if let Err` warning branch
(`mod.rs` lines 63-68), i.e. the push is attempted and fails. -/
def LevelMonitor.sendSampleWarns (m : LevelMonitor) : Bool :=
  if m.sample_producer.length = SAMPLE_CAPACITY then false
  else
    match channelPush m.sample_producer m.meterSample with
    | some _ => false
    | none => true

/-- True iff the call to `send_sample` evaluates the `usize` expression
`self.raw.len() - 10` (`mod.rs` line 41) with `len < 10`, i.e. the
subtraction overflows — a panic in a build with overflow checks.  The
expression is only reached when the producer is not full. -/
def LevelMonitor.sendSampleUnderflows (m : LevelMonitor) : Bool :=
  decide (m.sample_producer.length ≠ SAMPLE_CAPACITY ∧ m.raw.length < 10)

/-- The window update of `LevelMonitor::process` (`mod.rs` lines 73-77):
`push_back`, then `pop_front` when the length exceeds `WINDOW_CAP`. -/
def windowStep (raw : List Frame) (input : Frame) : List Frame :=
  let r := raw ++ [input]
  if WINDOW_CAP < r.length then r.tail else r

/-- `Effect::process for LevelMonitor` (`mod.rs` lines 72-81): append the
input frame to the window (evicting the front past `WINDOW_CAP`), call
`send_sample`, and return the input frame unchanged.  The `dt` and clock
arguments are unused by the source and omitted. -/
def LevelMonitor.process (m : LevelMonitor) (input : Frame) : LevelMonitor × Frame :=
  let m1 : LevelMonitor := { m with raw := windowStep m.raw input }
  (m1.sendSample, input)

/-- True iff this call to `process` panics in a build with overflow checks:
the overflow of `len - 10` inside the `send_sample` call, reached after the
window update. -/
def LevelMonitor.processPanics (m : LevelMonitor) (input : Frame) : Bool :=
  LevelMonitor.sendSampleUnderflows { m with raw := windowStep m.raw input }

/-- Feed a sequence of frames one at a time to `process`, keeping the state. -/
def LevelMonitor.processList (m : LevelMonitor) (fs : List Frame) : LevelMonitor :=
  fs.foldl (fun s f => (s.process f).1) m

/-- Feed a sequence of frames one at a time to `process`, collecting the
returned output frames as well as the final state. -/
def LevelMonitor.processTrace (m : LevelMonitor) (fs : List Frame) :
    LevelMonitor × List Frame :=
  match fs with
  | [] => (m, [])
  | f :: rest =>
    let step := m.process f
    let tail := LevelMonitor.processTrace step.1 rest
    (tail.1, step.2 :: tail.2)

/-- `LevelMonitorHandle::get_sample` (`handle.rs` lines 14-20): pop the oldest
sample from the shared channel; `Ok` on success, `Err(CommandQueueFull)` when
the channel is empty.  The handle owns only the consumer half, so `raw` is
untouched. -/
def LevelMonitorHandle.getSample (m : LevelMonitor) :
    LevelMonitor × Except CommandError LevelSample :=
  match m.sample_producer with
  | [] => (m, Except.error CommandError.commandQueueFull)
  | s :: rest => ({ m with sample_producer := rest }, Except.ok s)

/-- The last `n` elements of a list (a suffix of length `min n l.length`). -/
def lastN (n : ℕ) (l : List α) : List α :=
  l.drop (l.length - n)

/-! Helper lemmas shared by the claim theorems. -/

theorem LevelMonitor.sendSample_raw (m : LevelMonitor) : m.sendSample.raw = m.raw := by
  unfold LevelMonitor.sendSample
  split
  · rfl
  · split <;> rfl

theorem LevelMonitor.process_fst_raw (m : LevelMonitor) (f : Frame) :
    (m.process f).1.raw = windowStep m.raw f := by
  show (LevelMonitor.sendSample _).raw = _
  rw [LevelMonitor.sendSample_raw]

theorem lastN_of_length_le {n : ℕ} {l : List α} (h : l.length ≤ n) : lastN n l = l := by
  simp [lastN, Nat.sub_eq_zero_of_le h]

theorem lastN_length_le (n : ℕ) (l : List α) : (lastN n l).length ≤ n := by
  show (l.drop (l.length - n)).length ≤ n
  simp only [List.length_drop]
  omega

theorem lastN_append_right (l₁ : List α) {n : ℕ} {l₂ : List α} (h : n ≤ l₂.length) :
    lastN n (l₁ ++ l₂) = lastN n l₂ := by
  show (l₁ ++ l₂).drop ((l₁ ++ l₂).length - n) = l₂.drop (l₂.length - n)
  have h1 : (l₁ ++ l₂).length - n = l₁.length + (l₂.length - n) := by
    simp only [List.length_append]
    omega
  rw [h1, List.drop_add, List.drop_left]

theorem lastN_lastN_append (n : ℕ) (l fs : List α) :
    lastN n (lastN n l ++ fs) = lastN n (l ++ fs) := by
  by_cases h : l.length ≤ n
  · rw [lastN_of_length_le h]
  · have h2 : n ≤ (l.drop (l.length - n) ++ fs).length := by
      simp only [List.length_append, List.length_drop]
      omega
    calc lastN n (lastN n l ++ fs)
        = lastN n (l.drop (l.length - n) ++ fs) := rfl
      _ = lastN n (l.take (l.length - n) ++ (l.drop (l.length - n) ++ fs)) :=
          (lastN_append_right (l.take (l.length - n)) h2).symm
      _ = lastN n (l ++ fs) := by
          rw [← List.append_assoc, List.take_append_drop]

theorem windowStep_eq_lastN {raw : List Frame} (f : Frame) (h : raw.length ≤ WINDOW_CAP) :
    windowStep raw f = lastN WINDOW_CAP (raw ++ [f]) := by
  have hw : windowStep raw f
      = if WINDOW_CAP < (raw ++ [f]).length then (raw ++ [f]).tail else raw ++ [f] := rfl
  have hl : lastN WINDOW_CAP (raw ++ [f])
      = (raw ++ [f]).drop ((raw ++ [f]).length - WINDOW_CAP) := rfl
  rw [hw, hl]
  by_cases hlen : WINDOW_CAP < (raw ++ [f]).length
  · rw [if_pos hlen]
    have h1 : (raw ++ [f]).length - WINDOW_CAP = 1 := by
      simp only [List.length_append, List.length_singleton] at hlen ⊢
      omega
    rw [h1, List.drop_one]
  · rw [if_neg hlen]
    have h0 : (raw ++ [f]).length - WINDOW_CAP = 0 := by
      simp only [List.length_append, List.length_singleton] at hlen ⊢
      omega
    rw [h0, List.drop_zero]

theorem LevelMonitor.processList_raw (fs : List Frame) :
    ∀ (m : LevelMonitor), m.raw.length ≤ WINDOW_CAP →
      (m.processList fs).raw = lastN WINDOW_CAP (m.raw ++ fs) := by
  induction fs with
  | nil =>
    intro m h
    simp only [LevelMonitor.processList, List.foldl_nil, List.append_nil]
    rw [lastN_of_length_le h]
  | cons f rest ih =>
    intro m h
    have hstep : ((m.process f).1).raw = lastN WINDOW_CAP (m.raw ++ [f]) := by
      rw [LevelMonitor.process_fst_raw, windowStep_eq_lastN f h]
    have hle : ((m.process f).1).raw.length ≤ WINDOW_CAP := by
      rw [hstep]
      exact lastN_length_le _ _
    calc (m.processList (f :: rest)).raw
        = ((m.process f).1.processList rest).raw := rfl
      _ = lastN WINDOW_CAP ((m.process f).1.raw ++ rest) := ih _ hle
      _ = lastN WINDOW_CAP (lastN WINDOW_CAP (m.raw ++ [f]) ++ rest) := by rw [hstep]
      _ = lastN WINDOW_CAP ((m.raw ++ [f]) ++ rest) := lastN_lastN_append _ _ _
      _ = lastN WINDOW_CAP (m.raw ++ (f :: rest)) := by rw [List.append_assoc]; rfl

/-! Claim theorems. -/

/-- C1: feeding any sequence of frames one at a time to `LevelMonitor::process`
starting from a freshly built monitor leaves the rolling window holding
exactly the most recent `min L WINDOW_CAP` frames in arrival order (newest at
the tail), where `L` is the number of frames processed; in particular the
length never exceeds the capacity and the oldest frame is evicted when an
append would exceed it. -/
theorem window_holds_last_min_frames (v : Volume) (fs : List Frame) :
    ((LevelMonitorBuilder.new v).build.processList fs).raw
        = fs.drop (fs.length - WINDOW_CAP)
      ∧ ((LevelMonitorBuilder.new v).build.processList fs).raw.length
        = min fs.length WINDOW_CAP := by
  have hcap : ((LevelMonitorBuilder.new v).build).raw.length ≤ WINDOW_CAP := by
    show ([] : List Frame).length ≤ WINDOW_CAP
    simp [WINDOW_CAP]
  have h := LevelMonitor.processList_raw fs (LevelMonitorBuilder.new v).build hcap
  have hnil : ((LevelMonitorBuilder.new v).build).raw = ([] : List Frame) := rfl
  rw [hnil, List.nil_append] at h
  refine ⟨h, ?_⟩
  rw [h]
  show (fs.drop (fs.length - WINDOW_CAP)).length = min fs.length WINDOW_CAP
  simp only [List.length_drop, WINDOW_CAP]
  omega

/-- C2: `LevelMonitor::process` returns its input frame unchanged, for every
input frame and every internal state of the effect. -/
theorem process_output_equals_input (m : LevelMonitor) (f : Frame) :
    (m.process f).2 = f := rfl

/-- C3 counter-evidence: processing a single frame `(1, 1)` on a freshly built
monitor pushes a sample into the channel, and that sample is the aggregate
`left/right/left_peak/right_peak` record computed by `send_sample` — not a
copy of the rolling window's frames (the window at that moment holds the one
frame `(1, 1)`, which the published record does not contain). -/
theorem first_published_sample_is_aggregate :
    (LevelMonitorBuilder.default.build.process ⟨1, 1⟩).1.sample_producer
        = [{ left := 0, right := 0, left_peak := 1, right_peak := 1 }]
      ∧ (LevelMonitorBuilder.default.build.process ⟨1, 1⟩).1.raw = [⟨1, 1⟩] := by
  decide

/-- C4 counter-evidence: the very first call to `process` on a freshly built
monitor (channel empty, only 1 frame ever processed, far fewer than the
window capacity 2048) already pushes a sample into the channel. -/
theorem sample_published_before_window_full :
    (LevelMonitorBuilder.default.build.process ⟨2, 2⟩).1.sample_producer.length = 1
      ∧ (LevelMonitorBuilder.default.build.process ⟨2, 2⟩).1.raw.length = 1
      ∧ 1 < WINDOW_CAP := by
  decide

/-- C5 counter-evidence: the first call to `process` on a freshly built
monitor reaches the `usize` subtraction `self.raw.len() - 10` with
`len = 1 < 10`, i.e. the subtraction overflows — a panic in any build with
overflow checks enabled. -/
theorem process_underflows_on_first_frame :
    LevelMonitor.processPanics LevelMonitorBuilder.default.build ⟨0, 0⟩ = true := by
  decide

/-- C6: when `process` is called with the sample channel full, no sample is
pushed (the channel is unchanged), yet the call behaves exactly as with a
free slot otherwise: the frame is appended to the window with normal
eviction, the resulting window equals the window a run with an empty channel
would produce, and the input frame is returned unchanged. -/
theorem full_channel_skips_publish (m : LevelMonitor) (f : Frame)
    (h : m.sample_producer.length = SAMPLE_CAPACITY) :
    (m.process f).2 = f
      ∧ (m.process f).1.sample_producer = m.sample_producer
      ∧ (m.process f).1.raw = windowStep m.raw f
      ∧ (m.process f).1.raw
          = (LevelMonitor.process { m with sample_producer := [] } f).1.raw := by
  refine ⟨rfl, ?_, m.process_fst_raw f, ?_⟩
  · show (LevelMonitor.sendSample { m with raw := windowStep m.raw f }).sample_producer
        = m.sample_producer
    unfold LevelMonitor.sendSample
    split
    · rfl
    · exact absurd h (by assumption)
  · rw [LevelMonitor.process_fst_raw, LevelMonitor.process_fst_raw]

/-- Witness for C6: a concrete monitor whose channel holds
`SAMPLE_CAPACITY = 4` samples, processing the frame `(1, 1)`. -/
theorem full_channel_skips_publish_witness :
    ((⟨[⟨0, 0, 0, 0⟩, ⟨0, 0, 0, 0⟩, ⟨0, 0, 0, 0⟩, ⟨0, 0, 0, 0⟩], []⟩ :
        LevelMonitor).sample_producer.length = SAMPLE_CAPACITY)
      ∧ (((⟨[⟨0, 0, 0, 0⟩, ⟨0, 0, 0, 0⟩, ⟨0, 0, 0, 0⟩, ⟨0, 0, 0, 0⟩], []⟩ :
            LevelMonitor).process ⟨1, 1⟩).2 = ⟨1, 1⟩
          ∧ ((⟨[⟨0, 0, 0, 0⟩, ⟨0, 0, 0, 0⟩, ⟨0, 0, 0, 0⟩, ⟨0, 0, 0, 0⟩], []⟩ :
              LevelMonitor).process ⟨1, 1⟩).1.sample_producer
            = (⟨[⟨0, 0, 0, 0⟩, ⟨0, 0, 0, 0⟩, ⟨0, 0, 0, 0⟩, ⟨0, 0, 0, 0⟩], []⟩ :
              LevelMonitor).sample_producer
          ∧ ((⟨[⟨0, 0, 0, 0⟩, ⟨0, 0, 0, 0⟩, ⟨0, 0, 0, 0⟩, ⟨0, 0, 0, 0⟩], []⟩ :
              LevelMonitor).process ⟨1, 1⟩).1.raw
            = windowStep (⟨[⟨0, 0, 0, 0⟩, ⟨0, 0, 0, 0⟩, ⟨0, 0, 0, 0⟩, ⟨0, 0, 0, 0⟩], []⟩ :
              LevelMonitor).raw ⟨1, 1⟩
          ∧ ((⟨[⟨0, 0, 0, 0⟩, ⟨0, 0, 0, 0⟩, ⟨0, 0, 0, 0⟩, ⟨0, 0, 0, 0⟩], []⟩ :
              LevelMonitor).process ⟨1, 1⟩).1.raw
            = (LevelMonitor.process
                { (⟨[⟨0, 0, 0, 0⟩, ⟨0, 0, 0, 0⟩, ⟨0, 0, 0, 0⟩, ⟨0, 0, 0, 0⟩], []⟩ :
                  LevelMonitor) with sample_producer := [] } ⟨1, 1⟩).1.raw) :=
  ⟨by decide, full_channel_skips_publish _ _ (by decide)⟩

/-- C7: `LevelMonitorHandle::get_sample` never panics or blocks (it is a total
function of the state); it returns `Ok` with the oldest queued sample if and
only if the channel is non-empty, removing exactly that sample (the new queue
is the tail, so publish order is preserved across successive calls), and
returns the typed error `CommandError::CommandQueueFull` when the channel has
no pending item.  The effect's window is untouched. -/
theorem getSample_pops_oldest_or_errors (m : LevelMonitor) :
    (LevelMonitorHandle.getSample m).2
        = (match m.sample_producer with
            | [] => Except.error CommandError.commandQueueFull
            | s :: _ => Except.ok s)
      ∧ (LevelMonitorHandle.getSample m).1.sample_producer = m.sample_producer.tail
      ∧ (LevelMonitorHandle.getSample m).1.raw = m.raw := by
  cases h : m.sample_producer <;> simp [LevelMonitorHandle.getSample, h]

/-- C8: `LevelMonitorBuilder::build` is infallible (a total function) and
returns an effect/handle pair over the single channel allocated at build
time: the effect starts with an empty rolling window, the shared channel
starts empty, a push into the fresh channel succeeds, and a sample placed in
the shared channel is exactly what `get_sample` on the handle retrieves. -/
theorem build_fresh_shared_channel (v : Volume) (s : LevelSample) :
    (LevelMonitorBuilder.new v).build.raw = []
      ∧ (LevelMonitorBuilder.new v).build.sample_producer = []
      ∧ channelPush (LevelMonitorBuilder.new v).build.sample_producer s = some [s]
      ∧ (LevelMonitorHandle.getSample
          { (LevelMonitorBuilder.new v).build with sample_producer := [s] }).2
        = Except.ok s := by
  refine ⟨rfl, rfl, ?_, rfl⟩
  show (if (0 : ℕ) < SAMPLE_CAPACITY then some ([] ++ [s]) else none) = some [s]
  rw [if_pos (by simp [SAMPLE_CAPACITY])]
  rfl

/-- C9: the `Volume` given to `LevelMonitorBuilder::new` is discarded by
`LevelMonitor::new`: two monitors built from any two volumes are identical
states, and feeding them the same frame sequence yields identical output
frames and identical published samples. -/
theorem volume_has_no_observable_effect (v1 v2 : Volume) (fs : List Frame) :
    (LevelMonitorBuilder.new v1).build = (LevelMonitorBuilder.new v2).build
      ∧ (LevelMonitorBuilder.new v1).build.processTrace fs
        = (LevelMonitorBuilder.new v2).build.processTrace fs :=
  ⟨rfl, rfl⟩

/-- C10: in the sequential embedding, `send_sample` attempts its push only
after `is_full()` returned false, so on every state whose channel respects
the capacity bound the push succeeds (appending the computed sample) and the
channel-full warning branch is never taken. -/
theorem warn_branch_unreachable (m : LevelMonitor)
    (h : m.sample_producer.length ≤ SAMPLE_CAPACITY) :
    m.sendSampleWarns = false
      ∧ m.sendSample.sample_producer
        = (if m.sample_producer.length = SAMPLE_CAPACITY then m.sample_producer
           else m.sample_producer ++ [m.meterSample]) := by
  by_cases hf : m.sample_producer.length = SAMPLE_CAPACITY
  · simp [LevelMonitor.sendSampleWarns, LevelMonitor.sendSample, hf]
  · have hlt : m.sample_producer.length < SAMPLE_CAPACITY := Nat.lt_of_le_of_ne h hf
    simp [LevelMonitor.sendSampleWarns, LevelMonitor.sendSample, hf, channelPush, hlt]

/-- Witness for C10: the freshly built empty monitor state. -/
theorem warn_branch_unreachable_witness :
    ((⟨[], []⟩ : LevelMonitor).sample_producer.length ≤ SAMPLE_CAPACITY)
      ∧ ((⟨[], []⟩ : LevelMonitor).sendSampleWarns = false
          ∧ (⟨[], []⟩ : LevelMonitor).sendSample.sample_producer
            = (if (⟨[], []⟩ : LevelMonitor).sample_producer.length = SAMPLE_CAPACITY
               then (⟨[], []⟩ : LevelMonitor).sample_producer
               else (⟨[], []⟩ : LevelMonitor).sample_producer
                  ++ [(⟨[], []⟩ : LevelMonitor).meterSample])) :=
  ⟨by decide, warn_branch_unreachable _ (by decide)⟩

/-! Supporting invariant: the shared channel never exceeds its capacity, so
the hypothesis of the C10 theorem holds on every reachable state. -/

theorem LevelMonitor.sendSample_channel_le (m : LevelMonitor)
    (h : m.sample_producer.length ≤ SAMPLE_CAPACITY) :
    m.sendSample.sample_producer.length ≤ SAMPLE_CAPACITY := by
  unfold LevelMonitor.sendSample
  split
  · exact h
  · by_cases hlt : m.sample_producer.length < SAMPLE_CAPACITY
    · have hc : channelPush m.sample_producer m.meterSample
          = some (m.sample_producer ++ [m.meterSample]) := by
        simp [channelPush, hlt]
      rw [hc]
      show (m.sample_producer ++ [m.meterSample]).length ≤ SAMPLE_CAPACITY
      simp only [List.length_append, List.length_singleton, SAMPLE_CAPACITY] at hlt ⊢
      omega
    · have hc : channelPush m.sample_producer m.meterSample = none := by
        simp [channelPush, hlt]
      rw [hc]
      exact h

theorem LevelMonitor.processList_channel_le (fs : List Frame) :
    ∀ m : LevelMonitor, m.sample_producer.length ≤ SAMPLE_CAPACITY →
      (m.processList fs).sample_producer.length ≤ SAMPLE_CAPACITY := by
  induction fs with
  | nil => intro m h; exact h
  | cons f rest ih =>
    intro m h
    exact ih _ (LevelMonitor.sendSample_channel_le _ h)

theorem channel_le_capacity_reachable (v : Volume) (fs : List Frame) :
    (((LevelMonitorBuilder.new v).build).processList fs).sample_producer.length
      ≤ SAMPLE_CAPACITY :=
  LevelMonitor.processList_channel_le fs _
    (by show ([] : List LevelSample).length ≤ SAMPLE_CAPACITY; decide)
